import Mathlib

/-!
Verification of the cart/order core of the korichuko e-commerce storefront.

Shallow embedding of the Django models and views:
* `store/models.py` — `Product.display_price`, `Order.total_price`,
  `OrderItem.get_total_price`;
* `store/utils.py` — `get_or_create_open_order` (self-healing helper);
* `store/views.py` — `_get_or_create_open_order`, `_json_cart_payload`,
  `add_to_cart`, `remove_from_cart`, `update_cart_quantity`, `checkout`,
  `paymenthandler`;
* `adminpanel/views.py` — `order_toggle_completed`.

Python `Decimal` values are embedded as `ℚ` (exact arithmetic, as the spec
requires "exact decimal"); nullable columns as `Option ℚ`.  The relational
store is a `Store` structure holding the `Order` and `OrderItem` rows, with
the `Product` row inlined in each `OrderItem` (mirroring `item.product`).
Primary keys are `ℕ`; auto-increment is modelled as max-id-plus-one.
External effects (template rendering, the razorpay gateway client) are
abstracted: the outcome of `verify_payment_signature` — success, or any
exception — enters as an explicit parameter.
-/

namespace Korichuko

/-- A catalog product: only the fields the cart core reads.
`regular_price` is a non-nullable column with `default=0`, but the Python
attribute can still be `None` on an unsaved/legacy object, and
`Order.total_price` guards for that with `or Decimal("0.00")`; we keep it
`Option ℚ` so the guard is expressible.  `sale_price` is nullable. -/
structure Product where
  id : ℕ
  regular_price : Option ℚ
  sale_price : Option ℚ
  deriving Repr, DecidableEq

/-- An order row: owning user, completed flag.  `created_at` is represented
by the auto-increment `id` (creation order = id order, which is what
`order_by("id")` in `get_or_create_open_order` uses). -/
structure Order where
  id : ℕ
  user : ℕ
  completed : Bool
  deriving Repr, DecidableEq

/-- A line item: `order_id` is the FK to its order, `product` the referenced
product object (`item.product`), `quantity` a `PositiveIntegerField`
(non-negative integer). -/
structure OrderItem where
  id : ℕ
  order_id : ℕ
  product : Product
  quantity : ℕ
  deriving Repr, DecidableEq

/-- The relational store as seen by the cart core. -/
structure Store where
  orders : List Order
  items : List OrderItem
  products : List Product
  deriving Repr, DecidableEq

/-- `Product.display_price`: `self.sale_price if self.sale_price is not None
else self.regular_price`. -/
def display_price (p : Product) : Option ℚ :=
  match p.sale_price with
  | some sp => some sp
  | none => p.regular_price

/-- Python `x or Decimal("0.00")` applied to an optional decimal: yields
`0` when `x` is `None` or the falsy `Decimal("0")`, else the value itself. -/
def orDecimalZero (x : Option ℚ) : ℚ :=
  match x with
  | some v => if v = 0 then 0 else v
  | none => 0

/-- `OrderItem.get_total_price`:
`(self.product.display_price or Decimal("0.00")) * self.quantity`. -/
def get_total_price (it : OrderItem) : ℚ :=
  orDecimalZero (display_price it.product) * it.quantity

/-- `order.items.all()` — the line items of order `oid` (related manager). -/
def orderItems (s : Store) (oid : ℕ) : List OrderItem :=
  s.items.filter (fun it => it.order_id == oid)

/-- `Order.total_price`: `sum((item.product.display_price or Decimal("0.00"))
* item.quantity for item in self.items.all())`. -/
def total_price (s : Store) (oid : ℕ) : ℚ :=
  ((orderItems s oid).map
    (fun it => orDecimalZero (display_price it.product) * it.quantity)).sum

/-- The spec's effective price: sale_price if not null else regular_price,
falling back to 0 when even the regular price is absent. -/
def effective_price_spec (p : Product) : ℚ :=
  match p.sale_price with
  | some sp => sp
  | none => p.regular_price.getD 0

theorem orDecimalZero_eq_getD (x : Option ℚ) : orDecimalZero x = x.getD 0 := by
  cases x with
  | none => rfl
  | some v =>
    by_cases h : v = 0
    · simp [orDecimalZero, h]
    · simp [orDecimalZero, h]

theorem orDecimalZero_display_price (p : Product) :
    orDecimalZero (display_price p) = effective_price_spec p := by
  cases hs : p.sale_price with
  | none =>
    simp [display_price, hs, orDecimalZero_eq_getD, effective_price_spec]
  | some sp =>
    simp [display_price, hs, orDecimalZero_eq_getD, effective_price_spec]

/-- C2: for every order, `total_price` is the exact rational sum of
`quantity × effective_price` over its line items, where the effective price
is the sale price when present, else the regular price; a line whose product
lacks both price fields contributes 0 (no exception), and
`OrderItem.get_total_price` follows the same fallback rule per line. -/
theorem total_price_spec (s : Store) (oid : ℕ) :
    total_price s oid =
      ((orderItems s oid).map
        (fun it => (it.quantity : ℚ) * effective_price_spec it.product)).sum ∧
    (∀ it : OrderItem, get_total_price it =
      (it.quantity : ℚ) * effective_price_spec it.product) ∧
    (∀ it : OrderItem, display_price it.product = none →
      get_total_price it = 0) := by
  refine ⟨?_, ?_, ?_⟩
  · unfold total_price
    congr 1
    apply List.map_congr_left
    intro it _
    rw [orDecimalZero_display_price, mul_comm]
  · intro it
    rw [get_total_price, orDecimalZero_display_price, mul_comm]
  · intro it h
    rw [get_total_price, h]
    simp [orDecimalZero]

/-- Witness for C2 at a concrete store: one product with a sale price, one
with only a regular price, one with neither field set. -/
theorem total_price_spec_witness :
    (let pA : Product := ⟨1, some 100, none⟩
     let pB : Product := ⟨2, some 80, some 50⟩
     let pC : Product := ⟨3, none, none⟩
     let s : Store :=
       ⟨[⟨1, 1, false⟩],
        [⟨1, 1, pA, 2⟩, ⟨2, 1, pB, 1⟩, ⟨3, 1, pC, 4⟩], [pA, pB, pC]⟩
     total_price s 1 = 250 ∧ display_price pC = none ∧
       get_total_price ⟨3, 1, pC, 4⟩ = 0) := by
  refine ⟨?_, by decide, ?_⟩
  · norm_num [total_price, orderItems, display_price, orDecimalZero, List.filter]
  · exact (total_price_spec ⟨[⟨1, 1, false⟩], [], []⟩ 1).2.2 ⟨3, 1, ⟨3, none, none⟩, 4⟩ rfl

/-! ### Open-order resolution (`store/utils.py` and the views' helper) -/

/-- The filter `user=user, completed=False` on an order row. -/
def isOpenFor (u : ℕ) (o : Order) : Bool :=
  o.user == u && o.completed == false

/-- `Order.objects.filter(user=user, completed=False)`. -/
def openOrders (s : Store) (u : ℕ) : List Order :=
  s.orders.filter (isOpenFor u)

/-- Auto-increment primary key for a new order row. -/
def freshOrderId (s : Store) : ℕ :=
  (s.orders.map Order.id).foldr max 0 + 1

/-- `qs.order_by("id") ... qs.first()`: the row with the least id (ids are
unique, so tie-breaking is immaterial). -/
def keepOldest : List Order → Option Order
  | [] => none
  | o :: rest =>
    match keepOldest rest with
    | none => some o
    | some b => if b.id < o.id then some b else some o

/-- Errors the ORM lookup layer can signal (`Http404` from
`get_object_or_404`, `MultipleObjectsReturned` from `.get`). -/
inductive DbError where
  | notFound
  | multipleObjectsReturned
  deriving Repr, DecidableEq

/-- `store/utils.py get_or_create_open_order(user)`: take the open orders
ordered by id; if any exist keep the first, delete the others
(`.exclude(pk=order.pk).delete()`, cascading to their items) and return it;
otherwise create a fresh open order. -/
def get_or_create_open_order (s : Store) (u : ℕ) : Order × Store :=
  match keepOldest (openOrders s u) with
  | some o =>
    (o, { s with
          orders := s.orders.filter (fun o2 => !(isOpenFor u o2 && o2.id != o.id)),
          items := s.items.filter (fun it =>
            !(s.orders.any (fun o2 =>
              o2.id == it.order_id && isOpenFor u o2 && o2.id != o.id))) })
  | none =>
    let o : Order := ⟨freshOrderId s, u, false⟩
    (o, { s with orders := s.orders ++ [o] })

/-- `store/views.py _get_or_create_open_order(user)`: a bare
`Order.objects.get(user=user, completed=False)` that creates the order only
on `DoesNotExist`; with several open orders `.get` raises
`MultipleObjectsReturned`, which this helper does not catch. -/
def views_get_or_create_open_order (s : Store) (u : ℕ) :
    Except DbError (Order × Store) :=
  match openOrders s u with
  | [] =>
    let o : Order := ⟨freshOrderId s, u, false⟩
    .ok (o, { s with orders := s.orders ++ [o] })
  | [o] => .ok (o, s)
  | _ :: _ :: _ => .error .multipleObjectsReturned

theorem keepOldest_eq_none {l : List Order} : keepOldest l = none ↔ l = [] := by
  cases l with
  | nil => simp [keepOldest]
  | cons o rest =>
    simp only [keepOldest]
    cases keepOldest rest with
    | none => simp
    | some b =>
      by_cases h : b.id < o.id <;> simp [h]

theorem keepOldest_mem {l : List Order} {o : Order} (h : keepOldest l = some o) :
    o ∈ l := by
  induction l generalizing o with
  | nil => simp [keepOldest] at h
  | cons a rest ih =>
    simp only [keepOldest] at h
    cases hr : keepOldest rest with
    | none =>
      rw [hr] at h
      simp at h
      simp [h]
    | some b =>
      rw [hr] at h
      by_cases hb : b.id < a.id
      · simp [hb] at h
        subst h
        exact List.mem_cons_of_mem a (ih hr)
      · simp [hb] at h
        simp [h]

theorem keepOldest_min {l : List Order} {o : Order} (h : keepOldest l = some o) :
    ∀ x ∈ l, o.id ≤ x.id := by
  induction l generalizing o with
  | nil => simp [keepOldest] at h
  | cons a rest ih =>
    simp only [keepOldest] at h
    cases hr : keepOldest rest with
    | none =>
      rw [hr] at h
      simp at h
      subst h
      intro x hx
      rcases List.mem_cons.mp hx with rfl | hx'
      · exact le_refl _
      · exact absurd (keepOldest_eq_none.mp hr ▸ hx') (List.not_mem_nil x)
    | some b =>
      rw [hr] at h
      by_cases hb : b.id < a.id
      · simp [hb] at h
        subst h
        intro x hx
        rcases List.mem_cons.mp hx with rfl | hx'
        · exact le_of_lt hb
        · exact ih hr x hx'
      · simp [hb] at h
        subst h
        intro x hx
        rcases List.mem_cons.mp hx with rfl | hx'
        · exact le_refl _
        · exact le_trans (Nat.le_of_not_lt hb) (ih hr x hx')

theorem le_foldr_max {l : List ℕ} {x : ℕ} (hx : x ∈ l) : x ≤ l.foldr max 0 := by
  induction l with
  | nil => simp at hx
  | cons a rest ih =>
    rcases List.mem_cons.mp hx with rfl | hx'
    · exact le_max_left _ _
    · exact le_trans (ih hx') (le_max_right _ _)

theorem freshOrderId_not_mem (s : Store) : freshOrderId s ∉ s.orders.map Order.id := by
  intro hmem
  have := le_foldr_max hmem
  simp only [freshOrderId] at this
  omega

/-- With unique ids, filtering a list for `p x && x.id == a.id` where
`a ∈ l` and `p a` holds picks out exactly `[a]`. -/
theorem filter_id_unique {l : List Order} {a : Order} (ha : a ∈ l)
    (hnd : (l.map Order.id).Nodup) (p : Order → Bool) (hpa : p a = true) :
    l.filter (fun x => p x && x.id == a.id) = [a] := by
  induction l with
  | nil => simp at ha
  | cons b rest ih =>
    simp only [List.map_cons, List.nodup_cons] at hnd
    rcases List.mem_cons.mp ha with rfl | ha'
    · have hrest : rest.filter (fun x => p x && x.id == a.id) = [] := by
        apply List.filter_eq_nil_iff.mpr
        intro x hx hcontra
        simp only [Bool.and_eq_true, beq_iff_eq] at hcontra
        exact hnd.1 (hcontra.2 ▸ List.mem_map_of_mem Order.id hx)
      simp [List.filter_cons, hpa, hrest]
    · have hb : ¬(p b && b.id == a.id) = true := by
        simp only [Bool.and_eq_true, beq_iff_eq]
        rintro ⟨-, hid⟩
        exact hnd.1 (hid ▸ List.mem_map_of_mem Order.id ha')
      simp only [List.filter_cons, hb, if_false]
      exact ih ha' hnd.2

theorem isOpenFor_fresh (s : Store) (u : ℕ) :
    isOpenFor u ⟨freshOrderId s, u, false⟩ = true := by
  simp [isOpenFor]

/-- C1 (amended): the utils helper `get_or_create_open_order` returns an
open order of the user, keeps the least-id (earliest-created) open order
when any exist, deletes the duplicates, and leaves the user with exactly
one open order.  The views' helper `_get_or_create_open_order` guarantees
this only when the user starts with at most one open order; with two or
more it raises `MultipleObjectsReturned` and repairs nothing. -/
theorem get_or_create_open_order_spec (s : Store) (u : ℕ)
    (hnd : (s.orders.map Order.id).Nodup) :
    (get_or_create_open_order s u).1.user = u ∧
    (get_or_create_open_order s u).1.completed = false ∧
    openOrders (get_or_create_open_order s u).2 u = [(get_or_create_open_order s u).1] ∧
    (∀ o ∈ openOrders s u, (get_or_create_open_order s u).1.id ≤ o.id) ∧
    (openOrders s u ≠ [] → (get_or_create_open_order s u).1 ∈ openOrders s u) ∧
    ((openOrders s u).length ≤ 1 →
      ∃ o s2, views_get_or_create_open_order s u = .ok (o, s2) ∧
        o.user = u ∧ o.completed = false ∧ openOrders s2 u = [o]) ∧
    (2 ≤ (openOrders s u).length →
      views_get_or_create_open_order s u = .error .multipleObjectsReturned) := by
  have hcreate : ∀ (t : Store), openOrders t u = [] →
      openOrders { t with orders := t.orders ++ [⟨freshOrderId t, u, false⟩] } u
        = [(⟨freshOrderId t, u, false⟩ : Order)] := by
    intro t ht
    simp only [openOrders, List.filter_append] at *
    rw [ht]
    simp [isOpenFor]
  constructor
  · -- returned order belongs to the user and is open (both branches)
    unfold get_or_create_open_order
    cases hk : keepOldest (openOrders s u) with
    | some o =>
      have ho := keepOldest_mem hk
      have := (List.mem_filter.mp ho).2
      simp only [isOpenFor, Bool.and_eq_true, beq_iff_eq] at this
      simpa using this.1
    | none => rfl
  constructor
  · unfold get_or_create_open_order
    cases hk : keepOldest (openOrders s u) with
    | some o =>
      have ho := keepOldest_mem hk
      have := (List.mem_filter.mp ho).2
      simp only [isOpenFor, Bool.and_eq_true, beq_iff_eq] at this
      simpa using this.2
    | none => rfl
  constructor
  · -- after the call the user has exactly one open order: the returned one
    unfold get_or_create_open_order
    cases hk : keepOldest (openOrders s u) with
    | some o =>
      have ho := keepOldest_mem hk
      obtain ⟨homem, hopen⟩ := List.mem_filter.mp ho
      simp only [openOrders, List.filter_filter]
      have hcongr : s.orders.filter
          (fun o2 => isOpenFor u o2 && !(isOpenFor u o2 && o2.id != o.id))
          = s.orders.filter (fun o2 => isOpenFor u o2 && o2.id == o.id) := by
        apply List.filter_congr
        intro x _
        cases hox : isOpenFor u x <;> simp [hox, bne]
      exact hcongr.trans (filter_id_unique homem hnd (isOpenFor u) hopen)
    | none =>
      exact hcreate s (keepOldest_eq_none.mp hk)
  constructor
  · -- the kept order has the least id among the open ones
    intro o2 ho2
    unfold get_or_create_open_order
    cases hk : keepOldest (openOrders s u) with
    | some o => exact keepOldest_min hk o2 ho2
    | none => rw [keepOldest_eq_none.mp hk] at ho2; simp at ho2
  constructor
  · -- when open orders existed, the returned order is one of them
    intro hne
    unfold get_or_create_open_order
    cases hk : keepOldest (openOrders s u) with
    | some o => exact keepOldest_mem hk
    | none => exact absurd (keepOldest_eq_none.mp hk) hne
  constructor
  · -- views helper: fine when at most one open order exists
    intro hlen
    unfold views_get_or_create_open_order
    cases hop : openOrders s u with
    | nil =>
      refine ⟨_, _, rfl, rfl, rfl, ?_⟩
      exact hcreate s hop
    | cons o rest =>
      cases rest with
      | nil =>
        refine ⟨o, s, rfl, ?_, ?_, hop⟩ <;>
        · have : o ∈ openOrders s u := by rw [hop]; exact List.mem_cons_self o []
          have h2 := (List.mem_filter.mp this).2
          simp only [isOpenFor, Bool.and_eq_true, beq_iff_eq] at h2
          first
            | exact h2.1
            | simpa using h2.2
      | cons o2 rest2 => rw [hop] at hlen; simp at hlen
  · -- views helper: two or more open orders raise MultipleObjectsReturned
    intro hlen
    unfold views_get_or_create_open_order
    cases hop : openOrders s u with
    | nil => rw [hop] at hlen; simp at hlen
    | cons o rest =>
      cases rest with
      | nil => rw [hop] at hlen; simp at hlen
      | cons o2 rest2 => rfl

/-- Witness for C1's amended theorem: a user with two duplicate open orders;
the utils helper keeps order 1 and leaves exactly one open order. -/
theorem get_or_create_open_order_spec_witness :
    ((([⟨1, 1, false⟩, ⟨2, 1, false⟩] : List Order).map Order.id).Nodup) ∧
    openOrders (get_or_create_open_order ⟨[⟨1, 1, false⟩, ⟨2, 1, false⟩], [], []⟩ 1).2 1
      = [(get_or_create_open_order ⟨[⟨1, 1, false⟩, ⟨2, 1, false⟩], [], []⟩ 1).1] ∧
    views_get_or_create_open_order ⟨[⟨1, 1, false⟩, ⟨2, 1, false⟩], [], []⟩ 1
      = .error .multipleObjectsReturned :=
  ⟨by decide,
   (get_or_create_open_order_spec ⟨[⟨1, 1, false⟩, ⟨2, 1, false⟩], [], []⟩ 1 (by decide)).2.2.1,
   (get_or_create_open_order_spec ⟨[⟨1, 1, false⟩, ⟨2, 1, false⟩], [], []⟩ 1 (by decide)).2.2.2.2.2.2
     (by decide)⟩

/-- C1 counterexample: with two open orders for user 1, the cart views'
helper `_get_or_create_open_order` does not keep-and-repair: it raises
`MultipleObjectsReturned`, returning no order, and both open orders remain. -/
theorem views_helper_no_repair_counterexample :
    (openOrders ⟨[⟨1, 1, false⟩, ⟨2, 1, false⟩], [], []⟩ 1).length = 2 ∧
    views_get_or_create_open_order ⟨[⟨1, 1, false⟩, ⟨2, 1, false⟩], [], []⟩ 1
      = .error .multipleObjectsReturned :=
  ⟨by decide, rfl⟩

/-! ### `add_to_cart` (`store/views.py`) -/

/-- Auto-increment primary key for a new line item row. -/
def freshItemId (s : Store) : ℕ :=
  (s.items.map OrderItem.id).foldr max 0 + 1

/-- The rows matching `OrderItem.objects.filter(order=order, product=product)`
(FK match is by primary key). -/
def itemsFor (s : Store) (oid pid : ℕ) : List OrderItem :=
  s.items.filter (fun it => it.order_id == oid && it.product.id == pid)

/-- `OrderItem.objects.filter(pk=item.pk).update(quantity=F("quantity") + 1)`:
the atomic relative increment on the row with primary key `iid`. -/
def bump_item_quantity (iid : ℕ) (it2 : OrderItem) : OrderItem :=
  if it2.id == iid then { it2 with quantity := it2.quantity + 1 } else it2

/-- The item mutation of `add_to_cart` (store/views.py lines 194-196):
`get_or_create(order=order, product=product, defaults={"quantity": 1})`,
then, when the row already existed, the atomic increment; `.get_or_create`
raises `MultipleObjectsReturned` when several rows match. -/
def add_item_to_order (s : Store) (oid : ℕ) (p : Product) : Except DbError Store :=
  match itemsFor s oid p.id with
  | [] => .ok { s with items := s.items ++ [⟨freshItemId s, oid, p, 1⟩] }
  | [it] => .ok { s with items := s.items.map (bump_item_quantity it.id) }
  | _ :: _ :: _ => .error .multipleObjectsReturned

/-- Non-error response of the `add_to_cart` view: either the login-required
JSON/redirect for an anonymous user, or the cart payload for order `oid`. -/
inductive AddResponse where
  | unauthenticated
  | ok (oid : ℕ)
  deriving Repr, DecidableEq

/-- `store/views.py add_to_cart(request, pk)`: authentication gate, product
lookup by `pk`, `_get_or_create_open_order`, then the item mutation. -/
def add_to_cart (s : Store) (u : ℕ) (authed : Bool) (pk : ℕ) :
    Except DbError (Store × AddResponse) :=
  if !authed then .ok (s, .unauthenticated)
  else
    match s.products.find? (fun p => p.id == pk) with
    | none => .error .notFound
    | some p =>
      match views_get_or_create_open_order s u with
      | .error e => .error e
      | .ok (o, s1) =>
        match add_item_to_order s1 o.id p with
        | .error e => .error e
        | .ok s2 => .ok (s2, .ok o.id)

/-- Incrementing by primary key leaves every field but the quantity of the
matched line item unchanged, so the order/product filter is preserved. -/
theorem itemsFor_bump {s : Store} {oid pid : ℕ} {it0 : OrderItem}
    (h1 : itemsFor s oid pid = [it0]) :
    itemsFor { s with items := s.items.map (bump_item_quantity it0.id) } oid pid
      = [{ it0 with quantity := it0.quantity + 1 }] := by
  have hpf : ∀ x ∈ s.items,
      ((bump_item_quantity it0.id x).order_id == oid &&
        (bump_item_quantity it0.id x).product.id == pid)
      = (x.order_id == oid && x.product.id == pid) := by
    intro x _
    by_cases h : (x.id == it0.id) = true
    · simp [bump_item_quantity, h]
    · simp [bump_item_quantity, h]
  show (s.items.map (bump_item_quantity it0.id)).filter _ = _
  rw [List.filter_map]
  simp only [Function.comp_def]
  rw [List.filter_congr hpf]
  have h1' : s.items.filter (fun it => it.order_id == oid && it.product.id == pid)
      = [it0] := h1
  rw [h1']
  simp [bump_item_quantity]

/-- Creation path of `get_or_create`: no matching row, so a new line item
with quantity 1 is appended, and it is then the unique matching row. -/
theorem add_item_empty {s : Store} {oid : ℕ} {p : Product}
    (hempty : itemsFor s oid p.id = []) :
    add_item_to_order s oid p
      = .ok { s with items := s.items ++ [(⟨freshItemId s, oid, p, 1⟩ : OrderItem)] } ∧
    itemsFor { s with items := s.items ++ [(⟨freshItemId s, oid, p, 1⟩ : OrderItem)] } oid p.id
      = [(⟨freshItemId s, oid, p, 1⟩ : OrderItem)] := by
  constructor
  · unfold add_item_to_order
    rw [hempty]
  · show (s.items ++ [(⟨freshItemId s, oid, p, 1⟩ : OrderItem)]).filter _ = _
    rw [List.filter_append]
    have hempty' : s.items.filter (fun it => it.order_id == oid && it.product.id == p.id)
        = [] := hempty
    rw [hempty']
    simp

/-- Increment path of `get_or_create`: exactly one matching row, whose
quantity is bumped in place; no row is created or deleted. -/
theorem add_item_one {s : Store} {oid : ℕ} {p : Product} {it0 : OrderItem}
    (hone : itemsFor s oid p.id = [it0]) :
    add_item_to_order s oid p
      = .ok { s with items := s.items.map (bump_item_quantity it0.id) } ∧
    (itemsFor { s with items := s.items.map (bump_item_quantity it0.id) } oid p.id).map
        (fun it => (it.product.id, it.quantity)) = [(p.id, it0.quantity + 1)] ∧
    (s.items.map (bump_item_quantity it0.id)).length = s.items.length := by
  have hpid : it0.product.id = p.id := by
    have hmem : it0 ∈ itemsFor s oid p.id := by
      rw [hone]; exact List.mem_cons_self it0 []
    have h2 := (List.mem_filter.mp hmem).2
    exact beq_iff_eq.mp (Bool.and_eq_true _ _ |>.mp h2).2
  refine ⟨?_, ?_, by simp⟩
  · unfold add_item_to_order
    rw [hone]
  · rw [itemsFor_bump hone]
    simp [hpid]

/-- C5: on an open order, adding a product with no existing line item
creates exactly one OrderItem with quantity 1; adding when one line item
exists increments that item in place (no new row); hence two adds in
sequence yield a single OrderItem with quantity 2, never two rows for the
same product.  The `add_to_cart` view routes to exactly this mutation on
the user's open order. -/
theorem add_to_cart_spec (s : Store) (oid : ℕ) (p : Product) :
    (itemsFor s oid p.id = [] →
      ∃ s1, add_item_to_order s oid p = .ok s1 ∧
        (itemsFor s1 oid p.id).map (fun it => (it.product.id, it.quantity)) = [(p.id, 1)] ∧
        s1.items.length = s.items.length + 1 ∧
        ∃ s2, add_item_to_order s1 oid p = .ok s2 ∧
          (itemsFor s2 oid p.id).map (fun it => (it.product.id, it.quantity)) = [(p.id, 2)] ∧
          s2.items.length = s1.items.length) ∧
    (∀ it0, itemsFor s oid p.id = [it0] →
      ∃ s1, add_item_to_order s oid p = .ok s1 ∧
        (itemsFor s1 oid p.id).map (fun it => (it.product.id, it.quantity))
          = [(p.id, it0.quantity + 1)] ∧
        s1.items.length = s.items.length) ∧
    (∀ u pk pr o, s.products.find? (fun q => q.id == pk) = some pr →
      openOrders s u = [o] →
      add_to_cart s u true pk =
        (add_item_to_order s o.id pr).map (fun s2 => (s2, .ok o.id))) := by
  refine ⟨?_, ?_, ?_⟩
  · intro hempty
    obtain ⟨hadd1, hone⟩ := add_item_empty hempty
    refine ⟨_, hadd1, ?_, by simp, ?_⟩
    · rw [hone]; simp
    · obtain ⟨hadd2, hmap2, hlen2⟩ := add_item_one hone
      exact ⟨_, hadd2, hmap2, hlen2⟩
  · intro it0 hone
    obtain ⟨hadd1, hmap1, hlen1⟩ := add_item_one hone
    exact ⟨_, hadd1, hmap1, hlen1⟩
  · intro u pk pr o hfind hopen
    unfold add_to_cart views_get_or_create_open_order
    rw [hfind, hopen]
    simp only [Bool.not_true, Bool.false_eq_true, if_false]
    cases hadd : add_item_to_order s o.id pr <;> simp [hadd, Except.map]

/-- Witness for C5 at a concrete store: an empty cart; two sequential adds
of product 10 yield one line item with quantity 2. -/
theorem add_to_cart_spec_witness :
    itemsFor ⟨[⟨1, 1, false⟩], [], [⟨10, none, none⟩]⟩ 1 10 = [] ∧
    (∃ s1, add_item_to_order ⟨[⟨1, 1, false⟩], [], [⟨10, none, none⟩]⟩ 1 ⟨10, none, none⟩
        = .ok s1 ∧
      (itemsFor s1 1 10).map (fun it => (it.product.id, it.quantity)) = [(10, 1)] ∧
      s1.items.length
        = (⟨[⟨1, 1, false⟩], [], [⟨10, none, none⟩]⟩ : Store).items.length + 1 ∧
      ∃ s2, add_item_to_order s1 1 ⟨10, none, none⟩ = .ok s2 ∧
        (itemsFor s2 1 10).map (fun it => (it.product.id, it.quantity)) = [(10, 2)] ∧
        s2.items.length = s1.items.length) :=
  ⟨by decide,
   (add_to_cart_spec ⟨[⟨1, 1, false⟩], [], [⟨10, none, none⟩]⟩ 1 ⟨10, none, none⟩).1
     (by decide)⟩

/-! ### The JSON cart payload and quantity updates (`store/views.py`) -/

/-- The JSON body `_json_cart_payload` builds.  The rendered `cart_html`
string and the lossy `float()` cast applied to the decimal total are
presentation-layer concerns outside the claims; `total_price` is kept as
the exact decimal the cast receives. -/
structure CartPayload where
  status : String
  message : String
  cart_count : ℕ
  total_price : ℚ
  deriving Repr, DecidableEq

/-- `order.items.aggregate(total=Sum("quantity"))["total"]`: the SQL `Sum`
aggregate, which is `NULL` (`None`) over an empty row set. -/
def aggregate_sum_quantity (l : List OrderItem) : Option ℕ :=
  match l with
  | [] => none
  | _ :: _ => some ((l.map OrderItem.quantity).sum)

/-- `store/views.py _json_cart_payload(order, request, message, status)`:
`cart_count` is the quantity-sum aggregate with `or 0` recovering the
empty-cart `None`. -/
def json_cart_payload (s : Store) (oid : ℕ) (message status : String) : CartPayload :=
  { status := status
    message := message
    cart_count := (aggregate_sum_quantity (orderItems s oid)).getD 0
    total_price := total_price s oid }

/-- `_json_cart_payload` as every call site uses it: with the default
`status="success"` parameter. -/
def json_cart_payload_default (s : Store) (oid : ℕ) (message : String) : CartPayload :=
  json_cart_payload s oid message "success"

/-- C10: `cart_count` is the sum of the quantities of the order's line
items (0 for an itemless order), and the status field is exactly the one
supplied, `"success"` when left to the default. -/
theorem json_cart_payload_spec (s : Store) (oid : ℕ) (msg st : String) :
    (json_cart_payload s oid msg st).cart_count
      = ((orderItems s oid).map OrderItem.quantity).sum ∧
    (orderItems s oid = [] → (json_cart_payload s oid msg st).cart_count = 0) ∧
    (json_cart_payload_default s oid msg).status = "success" ∧
    (json_cart_payload s oid msg st).status = st := by
  refine ⟨?_, ?_, rfl, rfl⟩
  · cases h : orderItems s oid with
    | nil => simp [json_cart_payload, aggregate_sum_quantity, h]
    | cons a l => simp [json_cart_payload, aggregate_sum_quantity, h]
  · intro h
    simp [json_cart_payload, aggregate_sum_quantity, h]

/-- Witness for C10: two line items with quantities 2 and 3 give
`cart_count = 5` — the quantity sum, not the line-item count 2. -/
theorem json_cart_payload_spec_witness :
    (json_cart_payload
        ⟨[⟨1, 1, false⟩],
         [⟨1, 1, ⟨10, none, none⟩, 2⟩, ⟨2, 1, ⟨11, none, none⟩, 3⟩], []⟩
        1 "m" "success").cart_count
      = ((orderItems
        ⟨[⟨1, 1, false⟩],
         [⟨1, 1, ⟨10, none, none⟩, 2⟩, ⟨2, 1, ⟨11, none, none⟩, 3⟩], []⟩
        1).map OrderItem.quantity).sum ∧
    ((orderItems
        ⟨[⟨1, 1, false⟩],
         [⟨1, 1, ⟨10, none, none⟩, 2⟩, ⟨2, 1, ⟨11, none, none⟩, 3⟩], []⟩
        1).map OrderItem.quantity).sum = 5 :=
  ⟨(json_cart_payload_spec
      ⟨[⟨1, 1, false⟩],
       [⟨1, 1, ⟨10, none, none⟩, 2⟩, ⟨2, 1, ⟨11, none, none⟩, 3⟩], []⟩
      1 "m" "success").1,
   by decide⟩

/-- Result of Python `int(qty)` on the raw `quantity` POST string: `none`
models a `ValueError` (non-integer text).  The raw string enters the model
through its parse outcome. -/
abbrev ParsedQty := Option ℤ

/-- The quantity computation of `update_cart_quantity` (store/views.py
lines 227-240): an explicit `quantity` field wins, with
`except ValueError: pass` ignoring invalid values; otherwise the
`increase`/`decrease` action applies; explicit values and decreases clamp
at 1 via `max(1, ...)`. -/
def update_quantity_value (q : ℕ) (qtyField : Option ParsedQty)
    (action : Option String) : ℕ :=
  match qtyField with
  | some (some n) => (max 1 n).toNat
  | some none => q
  | none =>
    match action with
    | some a =>
      if a = "increase" then q + 1
      else if a = "decrease" then max 1 (q - 1)
      else q
    | none => q

/-- The ownership join `order__user=u, order__completed=False` on a line
item row. -/
def item_owned_open (s : Store) (u : ℕ) (it : OrderItem) : Bool :=
  s.orders.any (fun o => o.id == it.order_id && o.user == u && o.completed == false)

/-- `get_object_or_404(OrderItem, pk=item_id, order__user=request.user,
order__completed=False)` — a primary-key lookup, so at most one row
matches. -/
def find_cart_item (s : Store) (u : ℕ) (item_id : ℕ) : Option OrderItem :=
  s.items.find? (fun it => it.id == item_id && item_owned_open s u it)

/-- `store/views.py update_cart_quantity(request, item_id)`: look up the
item (404 when absent, foreign, or on a completed order); on POST compute
the new quantity and `item.save()` it back by primary key; always answer
with the standard cart payload. -/
def update_cart_quantity (s : Store) (u : ℕ) (item_id : ℕ) (isPost : Bool)
    (qtyField : Option ParsedQty) (action : Option String) :
    Except DbError (Store × CartPayload) :=
  match find_cart_item s u item_id with
  | none => .error .notFound
  | some it =>
    let s2 := if isPost then
        { s with items := s.items.map (fun it2 =>
            if it2.id == it.id then
              { it2 with quantity := update_quantity_value it2.quantity qtyField action }
            else it2) }
      else s
    .ok (s2, json_cart_payload_default s2 it.order_id "Quantity updated")

/-- C6: a quantity update never leaves a quantity below 1: an explicit
value is clamped to at least 1 (values below 1 become exactly 1), a
decrease at quantity 1 stays at 1, a resulting quantity is never negative
(the clamp makes it positive for every directive), and the update never
deletes the line item — the view preserves the item rows one-for-one. -/
theorem update_quantity_min_one (s : Store) (u item_id : ℕ)
    (qtyField : Option ParsedQty) (action : Option String) :
    (∀ q n, qtyField = some (some n) → 1 ≤ update_quantity_value q qtyField action) ∧
    (∀ q n, qtyField = some (some n) → n < 1 → update_quantity_value q qtyField action = 1) ∧
    (update_quantity_value 1 none (some "decrease") = 1) ∧
    (∀ q, 1 ≤ q → 1 ≤ update_quantity_value q qtyField action) ∧
    (∀ s2 pay, update_cart_quantity s u item_id true qtyField action = .ok (s2, pay) →
      s2.items.length = s.items.length ∧
      ∀ it2 ∈ s.items, ∃ it3 ∈ s2.items, it3.id = it2.id) := by
  refine ⟨?_, ?_, by simp [update_quantity_value], ?_, ?_⟩
  · rintro q n rfl
    simp only [update_quantity_value]
    omega
  · rintro q n rfl hn
    simp only [update_quantity_value]
    omega
  · intro q hq
    cases qtyField with
    | some pq =>
      cases pq with
      | some n => simp only [update_quantity_value]; omega
      | none => simpa [update_quantity_value] using hq
    | none =>
      cases action with
      | none => simpa [update_quantity_value] using hq
      | some a =>
        simp only [update_quantity_value]
        by_cases h1 : a = "increase"
        · simp [h1]
        · by_cases h2 : a = "decrease"
          · simp [h1, h2]
          · simpa [h1, h2] using hq
  · intro s2 pay h
    unfold update_cart_quantity at h
    cases hf : find_cart_item s u item_id with
    | none => rw [hf] at h; exact absurd h (by simp)
    | some it =>
      rw [hf] at h
      simp only [if_true, Except.ok.injEq, Prod.mk.injEq] at h
      obtain ⟨hs2, -⟩ := h
      subst hs2
      constructor
      · simp
      · intro it2 hit2
        refine ⟨_, List.mem_map_of_mem _ hit2, ?_⟩
        by_cases hid : (it2.id == it.id) = true
        · simp [hid]
        · simp [hid]

/-- Witness for C6: an explicit update to 0 on an item with quantity 5 is
clamped to exactly 1. -/
theorem update_quantity_min_one_witness :
    (some (some (0 : ℤ)) : Option ParsedQty) = some (some 0) ∧ (0 : ℤ) < 1 ∧
    update_quantity_value 5 (some (some 0)) none = 1 :=
  ⟨rfl, by decide,
   (update_quantity_min_one ⟨[], [], []⟩ 1 1 (some (some 0)) none).2.1 5 0 rfl (by decide)⟩

/-- C7: an explicit `quantity` value that is not a valid integer is
ignored: the stored quantity — indeed the whole store — is unchanged, no
error is raised, and the view still answers a normal payload with status
`"success"`. -/
theorem update_quantity_invalid_ignored (s : Store) (u item_id : ℕ)
    (action : Option String) :
    (∀ q, update_quantity_value q (some none) action = q) ∧
    (∀ it, find_cart_item s u item_id = some it →
      ∃ pay, update_cart_quantity s u item_id true (some none) action = .ok (s, pay) ∧
        pay.status = "success") := by
  constructor
  · intro q
    rfl
  · intro it hit
    have hmap : s.items.map (fun it2 =>
        if it2.id == it.id then
          { it2 with quantity := update_quantity_value it2.quantity (some none) action }
        else it2) = s.items := by
      have hcongr : ∀ it2 ∈ s.items, (if it2.id == it.id then
          { it2 with quantity := update_quantity_value it2.quantity (some none) action }
        else it2) = id it2 := by
        intro it2 _
        by_cases hid : (it2.id == it.id) = true
        · simp [hid, update_quantity_value]
        · simp [hid]
      rw [List.map_congr_left hcongr, List.map_id]
    have hrun : update_cart_quantity s u item_id true (some none) action
        = .ok ({ s with items := s.items.map (fun it2 =>
              if it2.id == it.id then
                { it2 with quantity := update_quantity_value it2.quantity (some none) action }
              else it2) },
            json_cart_payload_default { s with items := s.items.map (fun it2 =>
              if it2.id == it.id then
                { it2 with quantity := update_quantity_value it2.quantity (some none) action }
              else it2) } it.order_id "Quantity updated") := by
      unfold update_cart_quantity
      rw [hit]
      rfl
    refine ⟨json_cart_payload_default s it.order_id "Quantity updated", ?_, rfl⟩
    rw [hrun, hmap]

/-- Witness for C7: a malformed quantity string on a real cart item leaves
the store untouched and yields a success payload. -/
theorem update_quantity_invalid_ignored_witness :
    find_cart_item ⟨[⟨1, 1, false⟩], [⟨1, 1, ⟨10, none, none⟩, 3⟩], []⟩ 1 1
      = some ⟨1, 1, ⟨10, none, none⟩, 3⟩ ∧
    (∃ pay, update_cart_quantity ⟨[⟨1, 1, false⟩], [⟨1, 1, ⟨10, none, none⟩, 3⟩], []⟩
        1 1 true (some none) (some "increase")
      = .ok (⟨[⟨1, 1, false⟩], [⟨1, 1, ⟨10, none, none⟩, 3⟩], []⟩, pay) ∧
      pay.status = "success") :=
  ⟨by decide,
   (update_quantity_invalid_ignored ⟨[⟨1, 1, false⟩], [⟨1, 1, ⟨10, none, none⟩, 3⟩], []⟩
      1 1 (some "increase")).2 ⟨1, 1, ⟨10, none, none⟩, 3⟩ (by decide)⟩

/-! ### Checkout, payment callback, staff toggle
(`store/views.py`, `adminpanel/views.py`) -/

/-- Outcome of the razorpay interaction inside `paymenthandler`'s `try`
block: `verify_payment_signature` returns on a valid signature and raises
otherwise; missing callback fields make the signature check raise, and
client construction or gateway errors raise too — every raise lands in the
same `except`.  The gateway is an external service, so the outcome enters
as a parameter. -/
inductive VerifyOutcome where
  | ok
  | exn
  deriving Repr, DecidableEq

/-- Responses `paymenthandler` can produce. -/
inductive PaymentResponse where
  | invalidRequest
  | notFound
  | verificationFailed
  | redirectSuccess (oid : ℕ)
  deriving Repr, DecidableEq

/-- `order.completed = True; order.save()` — persist the flag on the row
with primary key `oid`. -/
def complete_order (s : Store) (oid : ℕ) : Store :=
  { s with orders := s.orders.map (fun o =>
      if o.id == oid then { o with completed := true } else o) }

/-- `get_object_or_404(Order, pk=order_id, user=request.user,
completed=False)` — a primary-key lookup. -/
def find_open_order_by_id (s : Store) (u oid : ℕ) : Option Order :=
  s.orders.find? (fun o => o.id == oid && o.user == u && o.completed == false)

/-- `store/views.py paymenthandler(request, order_id)`: non-POST requests
are rejected; the target must be the caller's own still-open order; then
the signature verification decides between completing the order and the
generic failure response. -/
def paymenthandler (s : Store) (u oid : ℕ) (isPost : Bool)
    (verify : VerifyOutcome) : Store × PaymentResponse :=
  if !isPost then (s, .invalidRequest)
  else
    match find_open_order_by_id s u oid with
    | none => (s, .notFound)
    | some o =>
      match verify with
      | .ok => (complete_order s o.id, .redirectSuccess o.id)
      | .exn => (s, .verificationFailed)

/-- Responses `checkout` can produce.  `multipleOpenError` is the
uncaught `MultipleObjectsReturned` from `get_object_or_404`'s `.get`;
`renderPayment` carries the minor-unit amount handed to the gateway and
the payment template. -/
inductive CheckoutResponse where
  | notFound
  | multipleOpenError
  | redirectSuccess (oid : ℕ)
  | renderPayment (amount_paise : ℤ)
  | renderCheckout
  deriving Repr, DecidableEq

/-- Python `int(...)` applied to an exact decimal: truncation toward
zero. -/
def int_trunc (q : ℚ) : ℤ :=
  q.num.tdiv q.den

/-- `store/views.py checkout(request)`: resolve the caller's open order
(404 when none); on POST, `payment_method == "cod"` completes the order
directly, `"razorpay"` computes `amount_paise = int(order.total_price *
100)` and renders the payment page (the gateway's session-creation call is
external), anything else re-renders the checkout page. -/
def checkout (s : Store) (u : ℕ) (isPost : Bool) (pm : Option String) :
    Store × CheckoutResponse :=
  match s.orders.filter (fun o => o.user == u && o.completed == false) with
  | [] => (s, .notFound)
  | [o] =>
    if isPost then
      match pm with
      | some m =>
        if m = "cod" then (complete_order s o.id, .redirectSuccess o.id)
        else if m = "razorpay" then
          (s, .renderPayment (int_trunc (total_price s o.id * 100)))
        else (s, .renderCheckout)
      | none => (s, .renderCheckout)
    else (s, .renderCheckout)
  | _ :: _ :: _ => (s, .multipleOpenError)

/-- `adminpanel/views.py order_toggle_completed(request, pk)`:
`get_object_or_404(Order, pk=pk)`, then `order.completed = not
order.completed; order.save()` — an unconditional flip. -/
def order_toggle_completed (s : Store) (pk : ℕ) : Option Store :=
  match s.orders.find? (fun o => o.id == pk) with
  | none => none
  | some o => some { s with orders := s.orders.map (fun o2 =>
      if o2.id == o.id then { o2 with completed := !o2.completed } else o2) }

/-- C3: with the order found and the request well-formed, a verification
failure (bad signature, missing fields, or a raising gateway client)
leaves the store — in particular the order's `completed=False` — unchanged
and answers the generic `"Payment Verification Failed"` response; the
order is completed exactly when verification succeeds. -/
theorem paymenthandler_spec (s : Store) (u oid : ℕ) (isPost : Bool)
    (v : VerifyOutcome) :
    (v = .exn → (paymenthandler s u oid isPost v).1 = s) ∧
    (∀ o, find_open_order_by_id s u oid = some o → v = .exn →
      paymenthandler s u oid true v = (s, .verificationFailed)) ∧
    (∀ o, find_open_order_by_id s u oid = some o → v = .ok →
      paymenthandler s u oid true v = (complete_order s o.id, .redirectSuccess o.id)) ∧
    (∀ o2 ∈ (paymenthandler s u oid isPost v).1.orders, o2.completed = true →
      o2 ∈ s.orders ∨ v = .ok) := by
  refine ⟨?_, ?_, ?_, ?_⟩
  · rintro rfl
    cases isPost with
    | false => rfl
    | true =>
      unfold paymenthandler
      cases hf : find_open_order_by_id s u oid <;> simp [hf]
  · rintro o hf rfl
    unfold paymenthandler
    simp [hf]
  · rintro o hf rfl
    unfold paymenthandler
    simp [hf]
  · intro o2 ho2 _
    cases v with
    | ok => exact Or.inr rfl
    | exn =>
      left
      have hst : (paymenthandler s u oid isPost .exn).1 = s := by
        cases isPost with
        | false => rfl
        | true =>
          unfold paymenthandler
          cases hf : find_open_order_by_id s u oid <;> simp [hf]
      rwa [hst] at ho2

/-- Witness for C3: a failed verification on user 1's open order keeps the
store unchanged and reports the generic failure. -/
theorem paymenthandler_spec_witness :
    find_open_order_by_id ⟨[⟨1, 1, false⟩], [], []⟩ 1 1 = some ⟨1, 1, false⟩ ∧
    paymenthandler ⟨[⟨1, 1, false⟩], [], []⟩ 1 1 true .exn
      = (⟨[⟨1, 1, false⟩], [], []⟩, .verificationFailed) :=
  ⟨by decide,
   (paymenthandler_spec ⟨[⟨1, 1, false⟩], [], []⟩ 1 1 true .exn).2.1
     ⟨1, 1, false⟩ (by decide) rfl⟩

/-- C4 counterexample: the staff toggle applied to a completed order sets
`completed` back to `false` — the flag is not one-way across all
operations. -/
theorem order_toggle_reopens_counterexample :
    order_toggle_completed ⟨[⟨1, 1, true⟩], [], []⟩ 1
      = some ⟨[⟨1, 1, false⟩], [], []⟩ := by
  decide

theorem complete_order_preserves (s : Store) (k : ℕ) :
    ∀ o ∈ s.orders, o.completed = true →
      ∃ o2 ∈ (complete_order s k).orders, o2.id = o.id ∧ o2.completed = true := by
  intro o ho hc
  have hmem := List.mem_map_of_mem
    (fun o2 => if o2.id == k then { o2 with completed := true } else o2) ho
  by_cases h : (o.id == k) = true
  · refine ⟨_, hmem, ?_, ?_⟩ <;> simp [h]
  · refine ⟨_, hmem, ?_, ?_⟩ <;> simp [h, hc]

theorem paymenthandler_store_shape (s : Store) (u oid : ℕ) (isPost : Bool)
    (v : VerifyOutcome) :
    (paymenthandler s u oid isPost v).1 = s ∨
    ∃ k, (paymenthandler s u oid isPost v).1 = complete_order s k := by
  cases isPost with
  | false => left; rfl
  | true =>
    unfold paymenthandler
    cases hf : find_open_order_by_id s u oid with
    | none => left; simp [hf]
    | some o =>
      cases v with
      | ok => right; exact ⟨o.id, by simp [hf]⟩
      | exn => left; simp [hf]

theorem checkout_store_shape (s : Store) (u : ℕ) (isPost : Bool)
    (pm : Option String) :
    (checkout s u isPost pm).1 = s ∨
    ∃ k, (checkout s u isPost pm).1 = complete_order s k := by
  unfold checkout
  cases hf : s.orders.filter (fun o => o.user == u && o.completed == false) with
  | nil => left; simp [hf]
  | cons o rest =>
    cases rest with
    | nil =>
      cases isPost with
      | false => left; simp [hf]
      | true =>
        cases pm with
        | none => left; simp [hf]
        | some m =>
          by_cases h1 : m = "cod"
          · right; exact ⟨o.id, by simp [hf, h1]⟩
          · by_cases h2 : m = "razorpay"
            · left; simp [hf, h1, h2]
            · left; simp [hf, h1, h2]
    | cons o2 rest2 => left; simp [hf]

/-- C4 (amended): the storefront operations keep `completed` one-way — the
payment callback and checkout never set a completed order back to open,
and a payment callback targeting an already-completed order is answered
`404` with the store unchanged — but the staff-side
`order_toggle_completed` is an unconditional flip that does reopen a
completed order. -/
theorem completed_one_way_spec (s : Store) (u oid : ℕ) (isPost : Bool)
    (v : VerifyOutcome) (pm : Option String) :
    (∀ o ∈ s.orders, o.completed = true →
      ∃ o2 ∈ (paymenthandler s u oid isPost v).1.orders,
        o2.id = o.id ∧ o2.completed = true) ∧
    (∀ o ∈ s.orders, o.completed = true →
      ∃ o2 ∈ (checkout s u isPost pm).1.orders,
        o2.id = o.id ∧ o2.completed = true) ∧
    ((∀ o ∈ s.orders, o.id = oid → o.user = u → o.completed = true) →
      paymenthandler s u oid true v = (s, .notFound)) ∧
    (∀ o, s.orders.find? (fun o2 => o2.id == oid) = some o → o.completed = true →
      ∃ s2, order_toggle_completed s oid = some s2 ∧
        ∃ o2 ∈ s2.orders, o2.id = o.id ∧ o2.completed = false) := by
  refine ⟨?_, ?_, ?_, ?_⟩
  · intro o ho hc
    rcases paymenthandler_store_shape s u oid isPost v with hst | ⟨k, hst⟩
    · rw [hst]; exact ⟨o, ho, rfl, hc⟩
    · rw [hst]
      exact complete_order_preserves s k o ho hc
  · intro o ho hc
    rcases checkout_store_shape s u isPost pm with hst | ⟨k, hst⟩
    · rw [hst]; exact ⟨o, ho, rfl, hc⟩
    · rw [hst]
      exact complete_order_preserves s k o ho hc
  · intro hall
    have hf : find_open_order_by_id s u oid = none := by
      unfold find_open_order_by_id
      apply List.find?_eq_none.mpr
      intro o ho hpred
      obtain ⟨h12, h3⟩ := Bool.and_eq_true _ _ |>.mp hpred
      obtain ⟨h1, h2⟩ := Bool.and_eq_true _ _ |>.mp h12
      have := hall o ho (beq_iff_eq.mp h1) (beq_iff_eq.mp h2)
      rw [this] at h3
      exact absurd (beq_iff_eq.mp h3) (by simp)
    unfold paymenthandler
    rw [hf]
    rfl
  · intro o hfind hc
    have ho := List.mem_of_find?_eq_some hfind
    have hrun : order_toggle_completed s oid
        = some { s with orders := s.orders.map (fun o2 =>
            if o2.id == o.id then { o2 with completed := !o2.completed } else o2) } := by
      unfold order_toggle_completed
      rw [hfind]
    refine ⟨_, hrun, ?_⟩
    have hmem := List.mem_map_of_mem
      (fun o2 => if o2.id == o.id then { o2 with completed := !o2.completed } else o2) ho
    refine ⟨_, hmem, ?_, ?_⟩ <;> simp [hc]

/-- Witness for C4's amended theorem: the staff toggle reopens a completed
order at a concrete store. -/
theorem completed_one_way_spec_witness :
    (([⟨1, 1, true⟩] : List Order).find? (fun o2 => o2.id == 1) = some ⟨1, 1, true⟩) ∧
    (⟨1, 1, true⟩ : Order).completed = true ∧
    (∃ s2, order_toggle_completed ⟨[⟨1, 1, true⟩], [], []⟩ 1 = some s2 ∧
      ∃ o2 ∈ s2.orders, o2.id = (⟨1, 1, true⟩ : Order).id ∧ o2.completed = false) :=
  ⟨by decide, rfl,
   (completed_one_way_spec ⟨[⟨1, 1, true⟩], [], []⟩ 1 1 true .ok none).2.2.2
     ⟨1, 1, true⟩ (by decide) rfl⟩

theorem int_trunc_eq_floor {q : ℚ} (hq : 0 ≤ q) : int_trunc q = ⌊q⌋ := by
  unfold int_trunc
  rw [Rat.floor_def]
  exact Int.tdiv_eq_ediv (Rat.num_nonneg.mpr hq)
    (by exact_mod_cast Nat.zero_le q.den)

/-- C8: the minor-unit amount handed to the gateway is
`int(total_price * 100)` — the truncation toward the nearest smaller
integer of the exact decimal `total × 100` (floor on the non-negative
totals at hand, i.e. the value is within 1 below `total × 100`, never
rounded up) — and for totals with at most two decimal places it is exactly
`total × 100`. -/
theorem checkout_amount_spec (s : Store) (u : ℕ) (o : Order)
    (hopen : s.orders.filter (fun o2 => o2.user == u && o2.completed == false) = [o]) :
    (checkout s u true (some "razorpay")).2
      = .renderPayment (int_trunc (total_price s o.id * 100)) ∧
    (0 ≤ total_price s o.id * 100 →
      ((int_trunc (total_price s o.id * 100) : ℚ) ≤ total_price s o.id * 100 ∧
        total_price s o.id * 100 < int_trunc (total_price s o.id * 100) + 1)) ∧
    (∀ n : ℤ, total_price s o.id = (n : ℚ) / 100 →
      (int_trunc (total_price s o.id * 100) : ℚ) = total_price s o.id * 100) := by
  refine ⟨?_, ?_, ?_⟩
  · unfold checkout
    rw [hopen]
    rfl
  · intro h
    rw [int_trunc_eq_floor h]
    constructor
    · exact_mod_cast Int.floor_le _
    · exact Int.lt_floor_add_one _
  · intro n htot
    have h1 : total_price s o.id * 100 = (n : ℚ) := by
      rw [htot, div_mul_cancel₀ _ (by norm_num : (100 : ℚ) ≠ 0)]
    rw [h1]
    unfold int_trunc
    rw [Rat.num_intCast, Rat.den_intCast, Nat.cast_one, Int.tdiv_one]

/-- Witness for C8: an order totalling 200.00; the gateway amount is the
symbolic truncation, and the two-decimal total makes it exactly
`total × 100 = 20000`. -/
theorem checkout_amount_spec_witness :
    (([⟨1, 1, false⟩] : List Order).filter
        (fun o2 => o2.user == 1 && o2.completed == false) = [⟨1, 1, false⟩]) ∧
    (checkout ⟨[⟨1, 1, false⟩], [⟨1, 1, ⟨10, some 100, none⟩, 2⟩],
        [⟨10, some 100, none⟩]⟩ 1 true (some "razorpay")).2
      = .renderPayment (int_trunc (total_price
          ⟨[⟨1, 1, false⟩], [⟨1, 1, ⟨10, some 100, none⟩, 2⟩],
           [⟨10, some 100, none⟩]⟩ (⟨1, 1, false⟩ : Order).id * 100)) ∧
    (total_price ⟨[⟨1, 1, false⟩], [⟨1, 1, ⟨10, some 100, none⟩, 2⟩],
        [⟨10, some 100, none⟩]⟩ (⟨1, 1, false⟩ : Order).id = ((20000 : ℤ) : ℚ) / 100) ∧
    (int_trunc (total_price ⟨[⟨1, 1, false⟩], [⟨1, 1, ⟨10, some 100, none⟩, 2⟩],
        [⟨10, some 100, none⟩]⟩ (⟨1, 1, false⟩ : Order).id * 100) : ℚ)
      = total_price ⟨[⟨1, 1, false⟩], [⟨1, 1, ⟨10, some 100, none⟩, 2⟩],
        [⟨10, some 100, none⟩]⟩ (⟨1, 1, false⟩ : Order).id * 100 :=
  ⟨by decide,
   (checkout_amount_spec ⟨[⟨1, 1, false⟩], [⟨1, 1, ⟨10, some 100, none⟩, 2⟩],
      [⟨10, some 100, none⟩]⟩ 1 ⟨1, 1, false⟩ (by decide)).1,
   by norm_num [total_price, orderItems, display_price, orDecimalZero, List.filter],
   (checkout_amount_spec ⟨[⟨1, 1, false⟩], [⟨1, 1, ⟨10, some 100, none⟩, 2⟩],
      [⟨10, some 100, none⟩]⟩ 1 ⟨1, 1, false⟩ (by decide)).2.2 20000
     (by norm_num [total_price, orderItems, display_price, orDecimalZero, List.filter])⟩

/-! ### `remove_from_cart` (`store/views.py`) -/

/-- Responses of `remove_from_cart`. -/
inductive RemoveResponse where
  | notFound
  | removed (oid : ℕ)
  deriving Repr, DecidableEq

/-- `store/views.py remove_from_cart(request, item_id)`:
`get_object_or_404(OrderItem, pk=item_id, order__user=request.user,
order__completed=False)` then `item.delete()` (deletion by primary key),
answering with the owning order's payload. -/
def remove_from_cart (s : Store) (u : ℕ) (item_id : ℕ) : Store × RemoveResponse :=
  match find_cart_item s u item_id with
  | none => (s, .notFound)
  | some it =>
    ({ s with items := s.items.filter (fun it2 => !(it2.id == it.id)) },
     .removed it.order_id)

/-- C9: `remove_from_cart` deletes a line item only when it exists,
belongs to an order of the requesting user, and that order is still open;
otherwise it answers NotFound with the store — every user's orders and
items — unchanged.  On success only the matched item is removed: orders
are untouched and every item with a different id survives. -/
theorem remove_from_cart_spec (s : Store) (u item_id : ℕ) :
    ((∀ it ∈ s.items, ¬(it.id = item_id ∧ item_owned_open s u it = true)) →
      remove_from_cart s u item_id = (s, .notFound)) ∧
    ((remove_from_cart s u item_id).1.orders = s.orders) ∧
    (∀ s2 oid2, remove_from_cart s u item_id = (s2, .removed oid2) →
      ∃ it ∈ s.items, it.id = item_id ∧ item_owned_open s u it = true ∧
        oid2 = it.order_id ∧
        s2.items = s.items.filter (fun it2 => !(it2.id == it.id)) ∧
        ∀ it2 ∈ s.items, it2.id ≠ item_id → it2 ∈ s2.items) := by
  refine ⟨?_, ?_, ?_⟩
  · intro hno
    have hf : find_cart_item s u item_id = none := by
      unfold find_cart_item
      apply List.find?_eq_none.mpr
      intro it hit hpred
      obtain ⟨h1, h2⟩ := Bool.and_eq_true _ _ |>.mp hpred
      exact hno it hit ⟨beq_iff_eq.mp h1, h2⟩
    unfold remove_from_cart
    rw [hf]
  · cases hf : find_cart_item s u item_id <;> simp [remove_from_cart, hf]
  · intro s2 oid2 h
    unfold remove_from_cart at h
    cases hf : find_cart_item s u item_id with
    | none =>
      rw [hf] at h
      exact absurd h (by simp)
    | some it =>
      rw [hf] at h
      simp only [Prod.mk.injEq, RemoveResponse.removed.injEq] at h
      obtain ⟨hs2, hoid⟩ := h
      have hf' : s.items.find?
          (fun it => it.id == item_id && item_owned_open s u it) = some it := hf
      have hmem : it ∈ s.items := List.mem_of_find?_eq_some hf'
      have hpred := List.find?_some hf'
      simp only [Bool.and_eq_true] at hpred
      obtain ⟨hp1, hp2⟩ := hpred
      subst hs2
      refine ⟨it, hmem, beq_iff_eq.mp hp1, hp2, hoid.symm, rfl, ?_⟩
      intro it2 hit2 hne
      show it2 ∈ s.items.filter (fun it2 => !(it2.id == it.id))
      apply List.mem_filter.mpr
      refine ⟨hit2, ?_⟩
      have hne2 : (it2.id == it.id) = false := by
        apply beq_eq_false_iff_ne.mpr
        rw [beq_iff_eq.mp hp1]
        exact hne
      simp [hne2]

/-- Witness for C9: user 1 attempting to remove user 2's line item gets
NotFound and both users' orders and items are untouched. -/
theorem remove_from_cart_spec_witness :
    (∀ it ∈ (⟨[⟨1, 1, false⟩, ⟨2, 2, false⟩],
        [⟨1, 1, ⟨10, none, none⟩, 1⟩, ⟨2, 2, ⟨10, none, none⟩, 1⟩], []⟩ : Store).items,
      ¬(it.id = 2 ∧ item_owned_open ⟨[⟨1, 1, false⟩, ⟨2, 2, false⟩],
        [⟨1, 1, ⟨10, none, none⟩, 1⟩, ⟨2, 2, ⟨10, none, none⟩, 1⟩], []⟩ 1 it = true)) ∧
    remove_from_cart ⟨[⟨1, 1, false⟩, ⟨2, 2, false⟩],
        [⟨1, 1, ⟨10, none, none⟩, 1⟩, ⟨2, 2, ⟨10, none, none⟩, 1⟩], []⟩ 1 2
      = (⟨[⟨1, 1, false⟩, ⟨2, 2, false⟩],
        [⟨1, 1, ⟨10, none, none⟩, 1⟩, ⟨2, 2, ⟨10, none, none⟩, 1⟩], []⟩, .notFound) :=
  ⟨by decide,
   (remove_from_cart_spec ⟨[⟨1, 1, false⟩, ⟨2, 2, false⟩],
      [⟨1, 1, ⟨10, none, none⟩, 1⟩, ⟨2, 2, ⟨10, none, none⟩, 1⟩], []⟩ 1 2).1
     (by decide)⟩

end Korichuko
